import Mathlib

/-!
Verification of the Smart Warehouse Reordering System's reorder decision
engine, demand-spike forecaster and analysis aggregator, shallowly embedded
from `src/server/server.js`.

Modelling conventions:
* JavaScript numbers are modelled as exact rationals (`ℚ`); integer-valued
  results of `Math.floor` are `ℤ`.
* The JavaScript value `Infinity`, returned by `calculateDaysOfStockRemaining`
  when `averageDailySales === 0`, is modelled as `none` in an `Option ℤ`;
  `Infinity <= t` is `false` in JavaScript for every finite `t`, which the
  `needsReorder` embedding reflects.
* `Math.round(x)` for finite `x` is `⌊x + 1/2⌋` (half toward `+∞`).
* Non-finite values created by division by zero (`x / 0` is `Infinity` or
  `NaN`) are modelled as `none` in an `Option ℚ`.
-/

/-- The `criticality` enum of the product schema: `['high', 'medium', 'low']`. -/
inductive Criticality where
  | high
  | medium
  | low
deriving DecidableEq, Repr

/-- A product record, from the Mongoose `productSchema` in `server.js`
(the `lastUpdated` timestamp plays no part in the analysed computations
and is omitted). -/
structure Product where
  productId : String
  name : String
  currentStock : ℚ
  averageDailySales : ℚ
  supplierLeadTime : ℚ
  minimumReorderQuantity : ℚ
  costPerUnit : ℚ
  criticality : Criticality
deriving DecidableEq, Repr

/-- Embeds `calculateDaysOfStockRemaining` (server.js:63-66):
`if (averageDailySales === 0) return Infinity; return Math.floor(currentStock / averageDailySales)`.
`none` is the JavaScript `Infinity` sentinel. -/
def calculateDaysOfStockRemaining (currentStock averageDailySales : ℚ) : Option ℤ :=
  if averageDailySales = 0 then none
  else some ⌊currentStock / averageDailySales⌋

/-- Embeds `calculateSafetyStockThreshold` (server.js:68-70): `supplierLeadTime + bufferDays`,
with `bufferDays` defaulting to `5` at the call sites modelled here. -/
def calculateSafetyStockThreshold (supplierLeadTime bufferDays : ℚ) : ℚ :=
  supplierLeadTime + bufferDays

/-- Embeds `calculateOptimalReorderQuantity` (server.js:72-75):
`Math.max(0, averageDailySales * targetDays - currentStock)`. -/
def calculateOptimalReorderQuantity (averageDailySales targetDays currentStock : ℚ) : ℚ :=
  max 0 (averageDailySales * targetDays - currentStock)

/-- Embeds `needsReorder` (server.js:77-79): `daysRemaining <= safetyThreshold`.
When `daysRemaining` is `Infinity` (`none`), the JavaScript comparison
`Infinity <= safetyThreshold` is `false`. -/
def needsReorder (daysRemaining : Option ℤ) (safetyThreshold : ℚ) : Bool :=
  match daysRemaining with
  | none => false
  | some d => decide ((d : ℚ) ≤ safetyThreshold)

/-- JavaScript `Math.round` on a finite number: half rounds toward `+∞`. -/
def jsMathRound (x : ℚ) : ℤ :=
  ⌊x + 1 / 2⌋

/-- The rounding idiom `Math.round(x * 100) / 100` used throughout `server.js`
for two-decimal output. -/
def round2 (x : ℚ) : ℚ :=
  (jsMathRound (x * 100) : ℚ) / 100

/-- Serialized form of a days-remaining value: a finite number, the string
tag `'Unlimited'`, or a raw non-finite number (`Infinity`) leaked into the
serialized output. -/
inductive SerializedDays where
  | finite (n : ℤ)
  | tagUnlimited
  | rawInfinity
deriving DecidableEq, Repr

/-- The guarded serialization `daysRemaining === Infinity ? 'Unlimited' : daysRemaining`
(server.js:190 and server.js:273). -/
def serializeDays : Option ℤ → SerializedDays
  | none => .tagUnlimited
  | some n => .finite n

/-- An unguarded embedding of a days-remaining value into output, as in
`simulation.original.daysRemaining` (server.js:268), where `Infinity` is
passed through without conversion. -/
def serializeDaysUnguarded : Option ℤ → SerializedDays
  | none => .rawInfinity
  | some n => .finite n

/-- One entry of the `/api/reorder-analysis` response (server.js:188-195):
the product fields spread together with the five derived fields. -/
structure AnalysisResult where
  product : Product
  daysRemaining : SerializedDays
  safetyThreshold : ℚ
  needsReorder : Bool
  optimalReorderQuantity : ℚ
  estimatedCost : ℚ
deriving DecidableEq, Repr

/-- The per-product body of the `/api/reorder-analysis` handler
(server.js:173-196). -/
def analyzeOne (p : Product) : AnalysisResult :=
  let daysRemaining := calculateDaysOfStockRemaining p.currentStock p.averageDailySales
  let safetyThreshold := calculateSafetyStockThreshold p.supplierLeadTime 5
  let needsReorderFlag := needsReorder daysRemaining safetyThreshold
  let optimalQuantity :=
    if needsReorderFlag then
      max (calculateOptimalReorderQuantity p.averageDailySales 60 p.currentStock)
        p.minimumReorderQuantity
    else 0
  let estimatedCost := round2 (optimalQuantity * p.costPerUnit)
  { product := p
    daysRemaining := serializeDays daysRemaining
    safetyThreshold := safetyThreshold
    needsReorder := needsReorderFlag
    optimalReorderQuantity := optimalQuantity
    estimatedCost := estimatedCost }

/-- The `criticalityOrder` lookup `{ high: 3, medium: 2, low: 1 }`
(server.js:200). -/
def criticalityValue : Criticality → ℤ
  | .high => 3
  | .medium => 2
  | .low => 1

/-- The sort comparator of the `/api/reorder-analysis` handler
(server.js:199-204): reorder-needed first, then higher criticality first. -/
def compareResults (a b : AnalysisResult) : ℤ :=
  if a.needsReorder && !b.needsReorder then -1
  else if !a.needsReorder && b.needsReorder then 1
  else criticalityValue b.product.criticality - criticalityValue a.product.criticality

/-- Holds when `a` need not be placed after `b` by the comparator: `compareResults a b ≤ 0`.
A stable sort with respect to this relation is what `Array.prototype.sort`
(stable per the ECMAScript specification) produces for the comparator of
server.js:199-204, since the comparator is a consistent total preorder. -/
def resLE (a b : AnalysisResult) : Prop :=
  compareResults a b ≤ 0

instance : DecidableRel resLE := fun a b =>
  inferInstanceAs (Decidable (compareResults a b ≤ 0))

/-- The full `/api/reorder-analysis` pipeline (server.js:170-207): map every
product to its analysis, then stably sort by the comparator. -/
def analyzeAll (l : List Product) : List AnalysisResult :=
  List.insertionSort resLE (l.map analyzeOne)

/-- The pair of sort keys the comparator of server.js:199-204 inspects. -/
def sortKey (r : AnalysisResult) : Bool × ℤ :=
  (r.needsReorder, criticalityValue r.product.criticality)

/-- The body of the `/api/simulate-demand-spike` request (server.js:217):
`const { productId, spikeMultiplier, spikeDuration } = req.body`. A `none`
field is an absent (`undefined`) property. -/
structure SpikeRequest where
  productId : Option String
  spikeMultiplier : Option ℚ
  spikeDuration : Option ℚ
deriving DecidableEq, Repr

/-- The two error responses of the `/api/simulate-demand-spike` handler:
status 400 (server.js:220-230) and status 404 (server.js:233-235). -/
inductive SpikeError where
  | invalidInput
  | notFound
deriving DecidableEq, Repr

/-- Embeds `Product.findOne({ productId })` (server.js:232) over an in-memory store. -/
def findOne (store : List Product) (pid : String) : Option Product :=
  store.find? (fun p => p.productId == pid)

/-- Mirrors `simulation.original` (server.js:265-269). Its `daysRemaining` is embedded
unguarded: the handler does not apply the `=== Infinity ? 'Unlimited'`
conversion there. -/
structure SpikeOriginal where
  currentStock : ℚ
  averageDailySales : ℚ
  daysRemaining : SerializedDays
deriving DecidableEq, Repr

/-- Mirrors `simulation.afterSpike` (server.js:270-277). -/
structure SpikeAfter where
  stockAfterSpike : ℚ
  newAverageDailySales : ℚ
  daysRemaining : SerializedDays
  needsReorder : Bool
  optimalReorderQuantity : ℚ
  estimatedCost : ℚ
deriving DecidableEq, Repr

/-- Mirrors `simulation.spikeDetails` (server.js:278-283). `stockDepletion` is `none`
when the JavaScript division `totalSpikeConsumption / currentStock` by a zero
stock yields a non-finite number (`NaN` or `Infinity`). -/
structure SpikeDetails where
  spikeMultiplier : ℚ
  spikeDuration : ℚ
  totalConsumptionDuringSpike : ℚ
  stockDepletion : Option ℚ
deriving DecidableEq, Repr

/-- The `simulation` response object (server.js:263-284). -/
structure SpikeSim where
  productName : String
  original : SpikeOriginal
  afterSpike : SpikeAfter
  spikeDetails : SpikeDetails
deriving DecidableEq, Repr

/-- Embeds `spikedDailySales = normalDailySales * spikeMultiplier` (server.js:239). -/
def spikedDailySalesOf (p : Product) (spikeMultiplier : ℚ) : ℚ :=
  p.averageDailySales * spikeMultiplier

/-- Embeds `totalSpikeConsumption = spikedDailySales * spikeDuration` (server.js:240). -/
def totalSpikeConsumptionOf (p : Product) (spikeMultiplier spikeDuration : ℚ) : ℚ :=
  spikedDailySalesOf p spikeMultiplier * spikeDuration

/-- Embeds `stockAfterSpike = Math.max(0, product.currentStock - totalSpikeConsumption)`
(server.js:243). -/
def stockAfterSpikeOf (p : Product) (spikeMultiplier spikeDuration : ℚ) : ℚ :=
  max 0 (p.currentStock - totalSpikeConsumptionOf p spikeMultiplier spikeDuration)

/-- The 30-day blended average (server.js:246-250): `spikedDailySales` when
`spikeDuration >= 30`, otherwise
`(normalDailySales * max(0, 30 - spikeDuration) + spikedDailySales * spikeDuration) / 30`. -/
def newAverageDailySalesOf (p : Product) (spikeMultiplier spikeDuration : ℚ) : ℚ :=
  if spikeDuration ≥ 30 then spikedDailySalesOf p spikeMultiplier
  else (p.averageDailySales * max 0 (30 - spikeDuration) +
        spikedDailySalesOf p spikeMultiplier * spikeDuration) / 30

/-- The post-validation body of the `/api/simulate-demand-spike` handler
(server.js:238-284). -/
def runSpike (p : Product) (spikeMultiplier spikeDuration : ℚ) : SpikeSim :=
  let totalSpikeConsumption := totalSpikeConsumptionOf p spikeMultiplier spikeDuration
  let stockAfterSpike := stockAfterSpikeOf p spikeMultiplier spikeDuration
  let newAverageDailySales := newAverageDailySalesOf p spikeMultiplier spikeDuration
  let daysRemaining := calculateDaysOfStockRemaining stockAfterSpike newAverageDailySales
  let safetyThreshold := calculateSafetyStockThreshold p.supplierLeadTime 5
  let needsReorderFlag := needsReorder daysRemaining safetyThreshold
  let optimalQuantity :=
    if needsReorderFlag then
      max (calculateOptimalReorderQuantity newAverageDailySales 60 stockAfterSpike)
        p.minimumReorderQuantity
    else 0
  { productName := p.name
    original :=
      { currentStock := p.currentStock
        averageDailySales := round2 p.averageDailySales
        daysRemaining :=
          serializeDaysUnguarded
            (calculateDaysOfStockRemaining p.currentStock p.averageDailySales) }
    afterSpike :=
      { stockAfterSpike := round2 stockAfterSpike
        newAverageDailySales := round2 newAverageDailySales
        daysRemaining := serializeDays daysRemaining
        needsReorder := needsReorderFlag
        optimalReorderQuantity := optimalQuantity
        estimatedCost := round2 (optimalQuantity * p.costPerUnit) }
    spikeDetails :=
      { spikeMultiplier := spikeMultiplier
        spikeDuration := spikeDuration
        totalConsumptionDuringSpike := round2 totalSpikeConsumption
        stockDepletion :=
          if p.currentStock = 0 then none
          else some (round2 (totalSpikeConsumption / p.currentStock * 100)) } }

/-- The `/api/simulate-demand-spike` handler (server.js:215-292): destructure
the body, reject falsy fields (absent, `0`, or the empty string) with status
400, reject non-positive multiplier or duration with status 400, reject an
unknown `productId` with status 404, otherwise run the simulation. -/
def simulateSpike (store : List Product) (req : SpikeRequest) :
    Except SpikeError SpikeSim :=
  match req.productId, req.spikeMultiplier, req.spikeDuration with
  | some pid, some mult, some dur =>
    if pid = "" ∨ mult = 0 ∨ dur = 0 then .error .invalidInput
    else if mult ≤ 0 ∨ dur ≤ 0 then .error .invalidInput
    else
      match findOne store pid with
      | none => .error .notFound
      | some p => .ok (runSpike p mult dur)
  | _, _, _ => .error .invalidInput

/-- Sample record `PROD-001` from the seed data (server.js:301-310). -/
def prodHeadphones : Product :=
  { productId := "PROD-001"
    name := "Wireless Bluetooth Headphones"
    currentStock := 45
    averageDailySales := 3.2
    supplierLeadTime := 7
    minimumReorderQuantity := 50
    costPerUnit := 2499
    criticality := .high }

/-- Sample record `PROD-009` from the seed data (server.js:381-390). -/
def prodSpeaker : Product :=
  { productId := "PROD-009"
    name := "Bluetooth Speaker Portable"
    currentStock := 8
    averageDailySales := 4.1
    supplierLeadTime := 9
    minimumReorderQuantity := 20
    costPerUnit := 2949
    criticality := .high }

/-- A record with no consumption (`averageDailySales = 0`), admissible under
the schema since `averageDailySales` is any required number. -/
def prodZeroSales : Product :=
  { productId := "PROD-100"
    name := "Dormant Item"
    currentStock := 10
    averageDailySales := 0
    supplierLeadTime := 7
    minimumReorderQuantity := 5
    costPerUnit := 12
    criticality := .low }

/-- A record with an empty shelf (`currentStock = 0`), admissible under the
schema since `currentStock` is any required number. -/
def prodNoStock : Product :=
  { productId := "PROD-101"
    name := "Sold Out Item"
    currentStock := 0
    averageDailySales := 1
    supplierLeadTime := 7
    minimumReorderQuantity := 5
    costPerUnit := 12
    criticality := .medium }

/-- C1: `calculateDaysOfStockRemaining` returns the unlimited sentinel exactly
when `dailySales = 0`, and otherwise `⌊stock / dailySales⌋` (truncation by
floor, not rounding); concretely, stock 45 at 3.2 daily sales gives 14 days. -/
theorem c1_days_of_stock_remaining (stock dailySales : ℚ)
    (hs : 0 ≤ stock) (hd : 0 ≤ dailySales) :
    (dailySales = 0 → calculateDaysOfStockRemaining stock dailySales = none) ∧
    (dailySales ≠ 0 →
      calculateDaysOfStockRemaining stock dailySales = some ⌊stock / dailySales⌋) ∧
    calculateDaysOfStockRemaining 45 (3.2 : ℚ) = some 14 := by
  refine ⟨fun h => by simp [calculateDaysOfStockRemaining, h],
    fun h => by simp [calculateDaysOfStockRemaining, h], ?_⟩
  norm_num [calculateDaysOfStockRemaining]

/-- Witness for C1 at stock 45, daily sales 3.2. -/
theorem c1_days_of_stock_remaining_witness :
    calculateDaysOfStockRemaining 45 (3.2 : ℚ) = some 14 :=
  (c1_days_of_stock_remaining 45 (3.2 : ℚ) (by norm_num) (by norm_num)).2.2

/-- The zero-sales sample record does not trigger a reorder. -/
theorem prodZeroSales_no_reorder : (analyzeOne prodZeroSales).needsReorder = false := by
  show needsReorder (calculateDaysOfStockRemaining prodZeroSales.currentStock
      prodZeroSales.averageDailySales)
      (calculateSafetyStockThreshold prodZeroSales.supplierLeadTime 5) = false
  simp [calculateDaysOfStockRemaining, prodZeroSales, needsReorder]

/-- C2: under the default 5-day buffer, the analysis sets `needsReorder` true
exactly when the (finite) days remaining are at most `supplierLeadTime + 5`;
a record with zero average daily sales gets the unlimited sentinel and never
triggers a reorder, whatever its lead time. -/
theorem c2_needs_reorder_iff (p : Product) :
    ((analyzeOne p).needsReorder = true ↔
      ∃ d : ℤ, calculateDaysOfStockRemaining p.currentStock p.averageDailySales = some d ∧
        (d : ℚ) ≤ p.supplierLeadTime + 5) ∧
    (p.averageDailySales = 0 →
      (analyzeOne p).daysRemaining = SerializedDays.tagUnlimited ∧
      (analyzeOne p).needsReorder = false) := by
  constructor
  · show needsReorder (calculateDaysOfStockRemaining p.currentStock p.averageDailySales)
        (calculateSafetyStockThreshold p.supplierLeadTime 5) = true ↔ _
    cases h : calculateDaysOfStockRemaining p.currentStock p.averageDailySales with
    | none => simp [needsReorder, calculateSafetyStockThreshold]
    | some d => simp [needsReorder, calculateSafetyStockThreshold]
  · intro h0
    constructor
    · show serializeDays (calculateDaysOfStockRemaining p.currentStock p.averageDailySales) = _
      simp [calculateDaysOfStockRemaining, h0, serializeDays]
    · show needsReorder (calculateDaysOfStockRemaining p.currentStock p.averageDailySales)
          (calculateSafetyStockThreshold p.supplierLeadTime 5) = false
      simp [calculateDaysOfStockRemaining, h0, needsReorder]

/-- Witness for C2 at the zero-sales record. -/
theorem c2_needs_reorder_iff_witness :
    (analyzeOne prodZeroSales).daysRemaining = SerializedDays.tagUnlimited ∧
    (analyzeOne prodZeroSales).needsReorder = false :=
  (c2_needs_reorder_iff prodZeroSales).2 rfl

/-- C3: the reported `optimalReorderQuantity` is never negative, is `0`
whenever no reorder is needed, and when a reorder is needed equals
`max (max 0 (averageDailySales * 60 - currentStock)) minimumReorderQuantity` —
the minimum-order floor is applied only on a triggered reorder. -/
theorem c3_optimal_reorder_quantity (p : Product) :
    0 ≤ (analyzeOne p).optimalReorderQuantity ∧
    ((analyzeOne p).needsReorder = false → (analyzeOne p).optimalReorderQuantity = 0) ∧
    ((analyzeOne p).needsReorder = true →
      (analyzeOne p).optimalReorderQuantity =
        max (max 0 (p.averageDailySales * 60 - p.currentStock)) p.minimumReorderQuantity) := by
  have hq : (analyzeOne p).optimalReorderQuantity =
      if (analyzeOne p).needsReorder then
        max (calculateOptimalReorderQuantity p.averageDailySales 60 p.currentStock)
          p.minimumReorderQuantity
      else 0 := rfl
  refine ⟨?_, fun h => by rw [hq, h]; simp, fun h => by
    rw [hq, h]; simp [calculateOptimalReorderQuantity, max_comm, max_assoc, max_left_comm]⟩
  rw [hq]
  split
  · exact le_trans (le_max_left 0 _) (le_max_left _ p.minimumReorderQuantity)
  · exact le_refl 0

/-- Witness for C3 at the zero-sales record (no reorder, quantity 0). -/
theorem c3_optimal_reorder_quantity_witness :
    (analyzeOne prodZeroSales).optimalReorderQuantity = 0 :=
  (c3_optimal_reorder_quantity prodZeroSales).2.1 prodZeroSales_no_reorder

/-- C4: for positive multiplier and duration, the spike simulation clamps
`stockAfterSpike = max 0 (currentStock - averageDailySales * mult * dur)` at
zero, and the blended 30-day average is exactly `averageDailySales * mult`
when `dur ≥ 30` and the weighted blend
`(averageDailySales * (30 - dur) + spikedDailySales * dur) / 30` otherwise. -/
theorem c4_spike_arithmetic (p : Product) (mult dur : ℚ)
    (hm : 0 < mult) (hd : 0 < dur) :
    stockAfterSpikeOf p mult dur =
      max 0 (p.currentStock - p.averageDailySales * mult * dur) ∧
    0 ≤ stockAfterSpikeOf p mult dur ∧
    (dur ≥ 30 → newAverageDailySalesOf p mult dur = p.averageDailySales * mult) ∧
    (dur < 30 → newAverageDailySalesOf p mult dur =
      (p.averageDailySales * (30 - dur) + p.averageDailySales * mult * dur) / 30) := by
  refine ⟨rfl, le_max_left 0 _, fun h30 => ?_, fun h30 => ?_⟩
  · simp [newAverageDailySalesOf, spikedDailySalesOf, h30]
  · have hmax : max (0 : ℚ) (30 - dur) = 30 - dur := max_eq_right (by linarith)
    simp [newAverageDailySalesOf, spikedDailySalesOf, not_le.mpr h30, hmax]

/-- Witness for C4 at the headphones record, multiplier 2, duration 10. -/
theorem c4_spike_arithmetic_witness :
    0 ≤ stockAfterSpikeOf prodHeadphones 2 10 :=
  (c4_spike_arithmetic prodHeadphones 2 10 (by norm_num) (by norm_num)).2.1

/-- C10: a spike on a record with zero average daily sales is a consumption
no-op: nothing is consumed, stock is unchanged, the blended average stays
zero, days remaining stay unlimited, and no reorder (hence no quantity) is
produced. -/
theorem c10_zero_sales_spike (p : Product) (mult dur : ℚ)
    (h0 : p.averageDailySales = 0) (hst : 0 ≤ p.currentStock)
    (hm : 0 < mult) (hd : 0 < dur) :
    totalSpikeConsumptionOf p mult dur = 0 ∧
    stockAfterSpikeOf p mult dur = p.currentStock ∧
    newAverageDailySalesOf p mult dur = 0 ∧
    (runSpike p mult dur).afterSpike.daysRemaining = SerializedDays.tagUnlimited ∧
    (runSpike p mult dur).afterSpike.needsReorder = false ∧
    (runSpike p mult dur).afterSpike.optimalReorderQuantity = 0 := by
  have h1 : totalSpikeConsumptionOf p mult dur = 0 := by
    simp [totalSpikeConsumptionOf, spikedDailySalesOf, h0]
  have h2 : stockAfterSpikeOf p mult dur = p.currentStock := by
    simp [stockAfterSpikeOf, h1, max_eq_right hst]
  have h3 : newAverageDailySalesOf p mult dur = 0 := by
    simp [newAverageDailySalesOf, spikedDailySalesOf, h0]
  have hdays : calculateDaysOfStockRemaining (stockAfterSpikeOf p mult dur)
      (newAverageDailySalesOf p mult dur) = none := by
    simp [calculateDaysOfStockRemaining, h3]
  have hflag : needsReorder
      (calculateDaysOfStockRemaining (stockAfterSpikeOf p mult dur)
        (newAverageDailySalesOf p mult dur))
      (calculateSafetyStockThreshold p.supplierLeadTime 5) = false := by
    rw [hdays]; rfl
  refine ⟨h1, h2, h3, ?_, ?_, ?_⟩
  · show serializeDays (calculateDaysOfStockRemaining (stockAfterSpikeOf p mult dur)
      (newAverageDailySalesOf p mult dur)) = SerializedDays.tagUnlimited
    rw [hdays]; rfl
  · exact hflag
  · show (if needsReorder
        (calculateDaysOfStockRemaining (stockAfterSpikeOf p mult dur)
          (newAverageDailySalesOf p mult dur))
        (calculateSafetyStockThreshold p.supplierLeadTime 5) = true then
        max (calculateOptimalReorderQuantity (newAverageDailySalesOf p mult dur) 60
          (stockAfterSpikeOf p mult dur)) p.minimumReorderQuantity
      else 0) = 0
    rw [hflag]
    rfl

/-- Witness for C10 at the zero-sales record, multiplier 2, duration 5. -/
theorem c10_zero_sales_spike_witness :
    (runSpike prodZeroSales 2 5).afterSpike.needsReorder = false :=
  (c10_zero_sales_spike prodZeroSales 2 5 rfl (by norm_num [prodZeroSales])
    (by norm_num) (by norm_num)).2.2.2.2.1

/-- Rounding to two decimal places with halves rounded up, stated from the
specification's words for comparison with the code's
`Math.round(x * 100) / 100` idiom. -/
def roundHalfUp2 (q : ℚ) : ℚ :=
  (⌊q * 100 + 1 / 2⌋ : ℚ) / 100

/-- C9: the analysis reports `estimatedCost` as `optimalReorderQuantity *
costPerUnit` rounded to two decimals under half-up rounding; at an exact
`.005` boundary (where `q * 100 + 1/2` is an integer `m`) the cost is the
rounded-up value `m / 100`; and the cost is `0` whenever no reorder is
needed. -/
theorem c9_estimated_cost (p : Product) :
    (analyzeOne p).estimatedCost =
      roundHalfUp2 ((analyzeOne p).optimalReorderQuantity * p.costPerUnit) ∧
    (∀ m : ℤ,
      (analyzeOne p).optimalReorderQuantity * p.costPerUnit * 100 + 1 / 2 = (m : ℚ) →
      (analyzeOne p).estimatedCost = (m : ℚ) / 100) ∧
    ((analyzeOne p).needsReorder = false → (analyzeOne p).estimatedCost = 0) := by
  have hcost : (analyzeOne p).estimatedCost =
      round2 ((analyzeOne p).optimalReorderQuantity * p.costPerUnit) := rfl
  refine ⟨rfl, fun m hm => ?_, fun hflag => ?_⟩
  · rw [hcost, round2, jsMathRound, hm, Int.floor_intCast]
  · have hq : (analyzeOne p).optimalReorderQuantity = 0 := by
      show (if (analyzeOne p).needsReorder = true then
          max (calculateOptimalReorderQuantity p.averageDailySales 60 p.currentStock)
            p.minimumReorderQuantity
        else 0) = 0
      rw [hflag]
      rfl
    rw [hcost, hq]
    norm_num [round2, jsMathRound]

/-- Witness for C9 at the zero-sales record (no reorder, cost 0). -/
theorem c9_estimated_cost_witness :
    (analyzeOne prodZeroSales).estimatedCost = 0 :=
  (c9_estimated_cost prodZeroSales).2.2 prodZeroSales_no_reorder

/-- C7: the `stockDepletion` percentage of the spike response is computed by
dividing `totalSpikeConsumption` by `currentStock` with no zero-stock guard
(server.js:282); at `currentStock = 0` the JavaScript division produces a
non-finite value (modelled `none`) which is carried into the serialized
response instead of an explicit not-applicable outcome. -/
theorem c7_stock_depletion_div_by_zero :
    prodNoStock.currentStock = 0 ∧
    (runSpike prodNoStock 2 5).spikeDetails.stockDepletion = none := by
  refine ⟨rfl, ?_⟩
  show (if prodNoStock.currentStock = 0 then none
    else some (round2 (totalSpikeConsumptionOf prodNoStock 2 5 /
      prodNoStock.currentStock * 100))) = none
  rfl

/-- C8: the reorder analysis and `afterSpike` serialize an unlimited days
value as the tag `'Unlimited'`, but the spike response's `original` snapshot
(server.js:268) embeds the raw `Infinity` produced for a zero-sales record
without that conversion. -/
theorem c8_original_days_raw_infinity :
    prodZeroSales.averageDailySales = 0 ∧
    (runSpike prodZeroSales 2 5).original.daysRemaining = SerializedDays.rawInfinity ∧
    (runSpike prodZeroSales 2 5).afterSpike.daysRemaining = SerializedDays.tagUnlimited ∧
    (analyzeOne prodZeroSales).daysRemaining = SerializedDays.tagUnlimited := by
  refine ⟨rfl, ?_, ?_, ?_⟩
  · show serializeDaysUnguarded (calculateDaysOfStockRemaining prodZeroSales.currentStock
      prodZeroSales.averageDailySales) = SerializedDays.rawInfinity
    rfl
  · show serializeDays (calculateDaysOfStockRemaining
      (stockAfterSpikeOf prodZeroSales 2 5) (newAverageDailySalesOf prodZeroSales 2 5)) =
      SerializedDays.tagUnlimited
    have h3 : newAverageDailySalesOf prodZeroSales 2 5 = 0 := by
      norm_num [newAverageDailySalesOf, spikedDailySalesOf, prodZeroSales]
    rw [h3]
    rfl
  · show serializeDays (calculateDaysOfStockRemaining prodZeroSales.currentStock
      prodZeroSales.averageDailySales) = SerializedDays.tagUnlimited
    rfl

/-- For a fully-populated request with a non-empty id, `simulateSpike`
reduces to the non-positivity check followed by the store lookup. -/
theorem simulateSpike_all_some (store : List Product) (pid : String) (m d : ℚ)
    (h : pid ≠ "") :
    simulateSpike store ⟨some pid, some m, some d⟩ =
      if m ≤ 0 ∨ d ≤ 0 then .error .invalidInput
      else
        match findOne store pid with
        | none => .error .notFound
        | some p => .ok (runSpike p m d) := by
  by_cases hnp : m ≤ 0 ∨ d ≤ 0
  · rw [if_pos hnp]
    by_cases hz : pid = "" ∨ m = 0 ∨ d = 0
    · show (if pid = "" ∨ m = 0 ∨ d = 0 then Except.error SpikeError.invalidInput
        else if m ≤ 0 ∨ d ≤ 0 then Except.error SpikeError.invalidInput
        else match findOne store pid with
          | none => Except.error SpikeError.notFound
          | some p => Except.ok (runSpike p m d)) = Except.error SpikeError.invalidInput
      rw [if_pos hz]
    · show (if pid = "" ∨ m = 0 ∨ d = 0 then Except.error SpikeError.invalidInput
        else if m ≤ 0 ∨ d ≤ 0 then Except.error SpikeError.invalidInput
        else match findOne store pid with
          | none => Except.error SpikeError.notFound
          | some p => Except.ok (runSpike p m d)) = Except.error SpikeError.invalidInput
      rw [if_neg hz, if_pos hnp]
  · rw [if_neg hnp]
    push_neg at hnp
    have hfalsy : ¬(pid = "" ∨ m = 0 ∨ d = 0) := by
      push_neg
      exact ⟨h, ne_of_gt hnp.1, ne_of_gt hnp.2⟩
    show (if pid = "" ∨ m = 0 ∨ d = 0 then Except.error SpikeError.invalidInput
      else if m ≤ 0 ∨ d ≤ 0 then Except.error SpikeError.invalidInput
      else match findOne store pid with
        | none => Except.error SpikeError.notFound
        | some p => Except.ok (runSpike p m d)) = _
    rw [if_neg hfalsy, if_neg (by push_neg; exact hnp)]

/-- C6: for every request whose `productId` is not the empty string (empty
ids never denote stored records), `simulateSpike` fails with `invalidInput`
exactly when a field is missing or the multiplier or duration is non-positive,
fails with `notFound` exactly when the parameters are valid but no record has
the requested id, and succeeds on every remaining request — `invalidInput`
and `notFound` are the only error outcomes. -/
theorem c6_simulate_spike_errors (store : List Product) (req : SpikeRequest)
    (hpid : req.productId ≠ some ("")) :
    (simulateSpike store req = .error .invalidInput ↔
      req.productId = none ∨ req.spikeMultiplier = none ∨ req.spikeDuration = none ∨
      (∃ m, req.spikeMultiplier = some m ∧ m ≤ 0) ∨
      (∃ d, req.spikeDuration = some d ∧ d ≤ 0)) ∧
    (simulateSpike store req = .error .notFound ↔
      ∃ pid m d, req.productId = some pid ∧ req.spikeMultiplier = some m ∧
        req.spikeDuration = some d ∧ 0 < m ∧ 0 < d ∧ findOne store pid = none) ∧
    ((∃ sim, simulateSpike store req = .ok sim) ↔
      ∃ pid m d p, req.productId = some pid ∧ req.spikeMultiplier = some m ∧
        req.spikeDuration = some d ∧ 0 < m ∧ 0 < d ∧ findOne store pid = some p) := by
  obtain ⟨oPid, oM, oD⟩ := req
  cases oPid with
  | none => simp [simulateSpike]
  | some pid =>
    cases oM with
    | none => simp [simulateSpike]
    | some m =>
      cases oD with
      | none => simp [simulateSpike]
      | some d =>
        have hne : pid ≠ "" := fun h => hpid (by simpa using h)
        rw [simulateSpike_all_some store pid m d hne]
        by_cases hnp : m ≤ 0 ∨ d ≤ 0
        · rw [if_pos hnp]
          refine ⟨by simpa using hnp, ?_, ?_⟩
          · simp only [Except.error.injEq]
            constructor
            · intro h
              cases h
            · rintro ⟨pid', m', d', hp, hm, hd, h1, h2, _⟩
              cases hm
              cases hd
              rcases hnp with h | h
              · exact absurd h1 (not_lt.mpr h)
              · exact absurd h2 (not_lt.mpr h)
          · constructor
            · rintro ⟨sim, hsim⟩
              cases hsim
            · rintro ⟨pid', m', d', p, hp, hm, hd, h1, h2, _⟩
              cases hm
              cases hd
              rcases hnp with h | h
              · exact absurd h1 (not_lt.mpr h)
              · exact absurd h2 (not_lt.mpr h)
        · rw [if_neg hnp]
          push_neg at hnp
          cases hfind : findOne store pid with
          | none =>
            refine ⟨?_, ?_, ?_⟩
            · simp only [Except.error.injEq]
              constructor
              · intro h
                cases h
              · rintro (h | h | h | ⟨m', hm, hle⟩ | ⟨d', hd, hle⟩)
                · cases h
                · cases h
                · cases h
                · cases hm
                  exact absurd hle (not_le.mpr hnp.1)
                · cases hd
                  exact absurd hle (not_le.mpr hnp.2)
            · simp only [Except.error.injEq, Option.some.injEq]
              constructor
              · intro _
                exact ⟨pid, m, d, rfl, rfl, rfl, hnp.1, hnp.2, hfind⟩
              · intro _
                trivial
            · constructor
              · rintro ⟨sim, hsim⟩
                cases hsim
              · rintro ⟨pid', m', d', p, hp, hm, hd, h1, h2, hf⟩
                cases hp
                cases hm
                cases hd
                rw [hfind] at hf
                cases hf
          | some p =>
            refine ⟨?_, ?_, ?_⟩
            · constructor
              · intro h
                cases h
              · rintro (h | h | h | ⟨m', hm, hle⟩ | ⟨d', hd, hle⟩)
                · cases h
                · cases h
                · cases h
                · cases hm
                  exact absurd hle (not_le.mpr hnp.1)
                · cases hd
                  exact absurd hle (not_le.mpr hnp.2)
            · constructor
              · intro h
                cases h
              · rintro ⟨pid', m', d', hp, hm, hd, h1, h2, hf⟩
                cases hp
                cases hm
                cases hd
                rw [hfind] at hf
                cases hf
            · constructor
              · intro _
                exact ⟨pid, m, d, p, rfl, rfl, rfl, hnp.1, hnp.2, hfind⟩
              · intro _
                exact ⟨runSpike p m d, rfl⟩

/-- Witness for C6: a valid request against a one-record store succeeds. -/
theorem c6_simulate_spike_errors_witness :
    ∃ sim, simulateSpike [prodHeadphones]
      ⟨some ("PROD-001"), some 2, some 5⟩ = .ok sim :=
  (c6_simulate_spike_errors [prodHeadphones] ⟨some ("PROD-001"), some 2, some 5⟩
    (by simp)).2.2.mpr
    ⟨"PROD-001", 2, 5, prodHeadphones, rfl, rfl, rfl, by norm_num, by norm_num, rfl⟩


/-- The comparator of server.js:199-204 is consistent: swapping the arguments
negates the result. -/
theorem compareResults_swap (a b : AnalysisResult) :
    compareResults b a = -compareResults a b := by
  unfold compareResults
  cases ha : a.needsReorder <;> cases hb : b.needsReorder <;> simp [ha, hb] <;> ring

/-- Reads `resLE` through the two sort keys: reorder-needed strictly first, or
equal reorder flags with the left criticality at least the right one. -/
theorem resLE_iff_key (a b : AnalysisResult) :
    resLE a b ↔
      (sortKey a).1 = true ∧ (sortKey b).1 = false ∨
      (sortKey a).1 = (sortKey b).1 ∧ (sortKey b).2 ≤ (sortKey a).2 := by
  unfold resLE compareResults sortKey
  cases ha : a.needsReorder <;> cases hb : b.needsReorder <;> simp [ha, hb] <;> omega

/-- Records with equal sort keys compare as ties. -/
theorem resLE_of_key_eq {a b : AnalysisResult} (h : sortKey a = sortKey b) :
    resLE a b := by
  rw [resLE_iff_key]
  exact Or.inr ⟨congrArg Prod.fst h, le_of_eq (congrArg Prod.snd h.symm)⟩

instance : IsTotal AnalysisResult resLE :=
  ⟨fun a b => by
    unfold resLE
    rw [compareResults_swap a b]
    omega⟩

instance : IsTrans AnalysisResult resLE :=
  ⟨fun a b c hab hbc => by
    rw [resLE_iff_key] at hab hbc ⊢
    rcases hab with ⟨ha, hb⟩ | ⟨hab, hvab⟩
    · rcases hbc with ⟨hb', _⟩ | ⟨hbc, _⟩
      · rw [hb] at hb'
        cases hb'
      · exact Or.inl ⟨ha, hbc ▸ hb⟩
    · rcases hbc with ⟨hb', hc⟩ | ⟨hbc, hvbc⟩
      · exact Or.inl ⟨hab.trans hb', hc⟩
      · exact Or.inr ⟨hab.trans hbc, hvbc.trans hvab⟩⟩

/-- Inserting `x` does not disturb the subsequence of entries sharing any one
sort key: `x` lands before every entry it ties with. -/
theorem filter_key_orderedInsert (k : Bool × ℤ) (x : AnalysisResult)
    (s : List AnalysisResult) :
    (List.orderedInsert resLE x s).filter (fun r => decide (sortKey r = k)) =
      if sortKey x = k then x :: s.filter (fun r => decide (sortKey r = k))
      else s.filter (fun r => decide (sortKey r = k)) := by
  induction s with
  | nil =>
    by_cases hk : sortKey x = k <;> simp [List.orderedInsert, List.filter, hk]
  | cons y ys ih =>
    rw [List.orderedInsert]
    by_cases hxy : resLE x y
    · rw [if_pos hxy]
      by_cases hk : sortKey x = k <;> simp [List.filter_cons, hk]
    · rw [if_neg hxy]
      have hne : sortKey x ≠ sortKey y := fun h => hxy (resLE_of_key_eq h)
      by_cases hyk : sortKey y = k
      · have hxk : sortKey x ≠ k := fun h => hne (h.trans hyk.symm)
        simp [List.filter_cons, hyk, hxk, ih]
      · by_cases hxk : sortKey x = k <;> simp [List.filter_cons, hyk, hxk, ih]

/-- The stable insertion sort leaves each same-key subsequence in input
order. -/
theorem filter_key_insertionSort (k : Bool × ℤ) (s : List AnalysisResult) :
    (List.insertionSort resLE s).filter (fun r => decide (sortKey r = k)) =
      s.filter (fun r => decide (sortKey r = k)) := by
  induction s with
  | nil => rfl
  | cons x xs ih =>
    rw [List.insertionSort, filter_key_orderedInsert, ih]
    by_cases hk : sortKey x = k <;> simp [List.filter_cons, hk]

/-- C5: `analyzeAll` returns exactly the per-record analyses (a permutation),
ordered with every reorder-needing record before every record not needing
one, by descending criticality within each of those groups, and with records
tied on both keys kept in input order (for every sort key, filtering the
output to that key gives the same sequence as filtering the input). -/
theorem c5_analysis_ordering (l : List Product) :
    (analyzeAll l).Perm (l.map analyzeOne) ∧
    (analyzeAll l).Pairwise (fun a b =>
      (b.needsReorder = true → a.needsReorder = true) ∧
      (a.needsReorder = b.needsReorder →
        criticalityValue b.product.criticality ≤ criticalityValue a.product.criticality)) ∧
    ∀ k : Bool × ℤ,
      (analyzeAll l).filter (fun r => decide (sortKey r = k)) =
        (l.map analyzeOne).filter (fun r => decide (sortKey r = k)) := by
  refine ⟨List.perm_insertionSort resLE (l.map analyzeOne), ?_,
    fun k => filter_key_insertionSort k (l.map analyzeOne)⟩
  have hs : (analyzeAll l).Pairwise resLE :=
    List.sorted_insertionSort resLE (l.map analyzeOne)
  refine hs.imp ?_
  intro a b hab
  rw [resLE_iff_key] at hab
  rcases hab with ⟨ha, hb⟩ | ⟨hab, hv⟩
  · refine ⟨fun hbtrue => ?_, fun heq => ?_⟩
    · rw [show b.needsReorder = (sortKey b).1 from rfl, hb] at hbtrue
      cases hbtrue
    · rw [show a.needsReorder = (sortKey a).1 from rfl, ha,
        show b.needsReorder = (sortKey b).1 from rfl, hb] at heq
      cases heq
  · exact ⟨fun hbtrue => by
      rw [show a.needsReorder = (sortKey a).1 from rfl, hab]
      exact hbtrue, fun _ => hv⟩
